import Mathlib

/-!
Shallow embedding of the build-orchestration logic of
`src/python/perspective/setup.py` (classes `PSPBuild` and `PSPCheckSDist`),
together with proofs settling the frozen claims about it.

Modelling conventions:
* Python strings are Lean `String`s; the handful of `str` methods the file
  uses (`replace("\\", "/")`, `upper()`, `format`/concatenation, `join`) are
  re-implemented below as structurally recursive functions over `String.data`
  so that every definition evaluates by kernel reduction.
* `os.path.abspath` is modelled as the identity: all inputs it is applied to
  range over arbitrary strings in the theorems, which covers every value
  `abspath` can produce.
* Machine integers do not occur; CPU counts and version components are `Nat`,
  process exit codes are `Int`.
* Fallible code returns `Except`.
-/

namespace PerspectiveSetup

/-! ## Basic string machinery (models of the Python `str` operations used) -/

/-- Test whether `p` is a leading segment of `l`. -/
def listStartsWith : List Char → List Char → Bool
  | [], _ => true
  | _ :: _, [] => false
  | p :: ps, c :: cs => p == c && listStartsWith ps cs

/-- Test whether `p` is a trailing segment of `l`. -/
def listEndsWith (p l : List Char) : Bool :=
  listStartsWith p.reverse l.reverse

/-- Test whether `pat` occurs as a contiguous segment of the list. -/
def occursIn (pat : List Char) : List Char → Bool
  | [] => pat.isEmpty
  | c :: t => listStartsWith pat (c :: t) || occursIn pat t

/-- Model of Python `s.replace("\\", "/")`: for a single-character pattern,
`str.replace` is exactly a character map. -/
def slashNormalize (s : String) : String :=
  String.mk (s.data.map (fun c => if c == ('\\') then ('/') else c))

/-- Whether the string contains a backslash character. -/
def hasBackslash (s : String) : Bool :=
  s.data.any (fun c => c == ('\\'))

/-- ASCII upper-casing of one character; `cfg.upper()` is only ever applied to
the ASCII strings "Debug"/"Release". -/
def upperChar (c : Char) : Char :=
  if (('a') ≤ c) && (c ≤ ('z')) then Char.ofNat (c.toNat - 32) else c

/-- Model of Python `s.upper()` for ASCII strings. -/
def strUpper (s : String) : String :=
  String.mk (s.data.map upperChar)

/-- Decimal digit character for `d < 10`. -/
def digitOf (d : Nat) : Char :=
  Char.ofNat (48 + d)

/-- Decimal digits of `n`, most significant first.  The recursion is indexed
by fuel to stay structural; `n + 1` steps always suffice since each step
divides by 10. -/
def decimalDigitsAux : Nat → Nat → List Char
  | 0, _ => []
  | fuel + 1, n =>
      if n < 10 then [digitOf n]
      else decimalDigitsAux fuel (n / 10) ++ [digitOf (n % 10)]

/-- Model of Python `str(n)` for a nonnegative integer. -/
def natDecimal (n : Nat) : String :=
  String.mk (decimalDigitsAux (n + 1) n)

/-- Model of Python `str(n)` for an integer. -/
def intDecimal : Int → String
  | Int.ofNat n => natDecimal n
  | Int.negSucc n => ("-") ++ natDecimal (n + 1)

/-- Model of Python `sep.join(parts)`. -/
def joinWith (sep : String) : List String → String
  | [] => ""
  | [x] => x
  | x :: y :: t => x ++ sep ++ joinWith sep (y :: t)

/-- Model of `os.path.join(a, b)` for the separator logic of
`posixpath.join`/`ntpath.join` (Windows drive-letter handling, which never
arises for the paths this file joins, is omitted). -/
def osJoin (isWin : Bool) (a b : String) : String :=
  let sep : String := if isWin then ("\\") else ("/")
  if listStartsWith sep.data b.data then b
  else if a.data.isEmpty || listEndsWith sep.data a.data then a ++ b
  else a ++ sep ++ b

/-- Number of occurrences of the exact string `a` in `l`. -/
def countArg (l : List String) (a : String) : Nat :=
  match l with
  | [] => 0
  | x :: xs => (if x = a then 1 else 0) + countArg xs a

/-- Number of elements of `l` that start with `p`. -/
def countStarting (l : List String) (p : String) : Nat :=
  match l with
  | [] => 0
  | x :: xs => (if listStartsWith p.data x.data then 1 else 0) + countStarting xs p

/-! ## VersionProbe: `PSPBuild.run_cmake`, lines 137-152 -/

/-- Characters matched by `\s` in the version regex. -/
def isSpaceChar (c : Char) : Bool :=
  (c == (' ')) || (c == ('\t')) || (c == ('\n')) || (c == ('\r')) ||
  (c == ('\x0b')) || (c == ('\x0c'))

/-- Drop the leading run of whitespace (the greedy `\s*`). -/
def dropSpaces : List Char → List Char
  | [] => []
  | c :: cs => if isSpaceChar c then dropSpaces cs else c :: cs

/-- Characters matched by `[\d.]`. -/
def isVersionChar (c : Char) : Bool :=
  c.isDigit || c == ('.')

/-- Take the leading run of `[\d.]` characters (the greedy `[\d.]+`). -/
def takeVersionChars : List Char → List Char
  | [] => []
  | c :: cs => if isVersionChar c then c :: takeVersionChars cs else []

/-- Model of `re.search(r"version\s*([\d.]+)", text)`: the group-1 text of the
leftmost match, or `none`.  At each start position the literal `version` must
match, then `\s*` greedily eats whitespace, then `[\d.]+` needs at least one
character; backtracking cannot trade characters between `\s*` and `[\d.]+`
because the character classes are disjoint. -/
def searchVersion : List Char → Option (List Char)
  | [] => none
  | c :: cs =>
      if listStartsWith [('v'), ('e'), ('r'), ('s'), ('i'), ('o'), ('n')] (c :: cs) then
        let grp := takeVersionChars (dropSpaces (List.drop 7 (c :: cs)))
        if grp.isEmpty then searchVersion cs else some grp
      else searchVersion cs

/-- One step of accumulating a digit run into a number; `cur` is the run in
progress. -/
def looseAux : Option Nat → List Char → List Nat
  | cur, [] => (match cur with | some n => [n] | none => [])
  | cur, c :: cs =>
      if c.isDigit then looseAux (some ((cur.getD 0) * 10 + (c.toNat - 48))) cs
      else
        match cur with
        | some n => n :: looseAux none cs
        | none => looseAux none cs

/-- Model of `distutils.version.LooseVersion` on a `[\d.]+` string: maximal
digit runs become integer components, the dots are separators and are
dropped. -/
def looseComponents (l : List Char) : List Nat :=
  looseAux none l

/-- Python list `<` on integer lists (lexicographic, shorter prefix is
smaller), which is how `LooseVersion.__lt__` compares the component lists. -/
def natListLt : List Nat → List Nat → Bool
  | [], [] => false
  | [], _ :: _ => true
  | _ :: _, [] => false
  | a :: as, b :: bs => if a < b then true else if b < a then false else natListLt as bs

/-- Outcome of `subprocess.check_output([cmake_cmd, "--version"])` as seen by
the caller: spawning may fail with `OSError` (absent executable), or the
process runs to completion with an exit code and captured stdout. -/
inductive SpawnResult
  | osError
  | exited (code : Int) (out : String)

/-- The ways `PSPBuild.run_cmake` can fail before reaching the per-extension
build loop. -/
inductive ProbeError
  /-- The `RuntimeError` raised by the `except OSError` handler. -/
  | toolNotFound (msg : String)
  /-- `subprocess.CalledProcessError` propagating out of `check_output`
  uncaught (the `except` clause only catches `OSError`). -/
  | calledProcessError (code : Int)
  /-- The `RuntimeError` raised by the Windows minimum-version check. -/
  | unsupportedToolVersion (msg : String)
  /-- `AttributeError` from `.group(1)` when `re.search` returned `None`. -/
  | attributeError
  deriving DecidableEq

/-- Model of the probing part of `PSPBuild.run_cmake` (lines 137-152): run
`cmake --version`, turn `OSError` into the "CMake must be installed"
`RuntimeError`, and on Windows parse the banner and enforce the 3.1.0
minimum.  `extNames` are the extension names interpolated into the
`ToolNotFound` message. -/
def runCmakeProbe (spawn : SpawnResult) (isWindows : Bool) (extNames : List String) :
    Except ProbeError Unit :=
  match spawn with
  | SpawnResult.osError =>
      Except.error (ProbeError.toolNotFound
        (("CMake must be installed to build the following extensions: ") ++
          joinWith (", ") extNames))
  | SpawnResult.exited code out =>
      if code ≠ 0 then Except.error (ProbeError.calledProcessError code)
      else if isWindows then
        match searchVersion out.data with
        | none => Except.error ProbeError.attributeError
        | some v =>
            if natListLt (looseComponents v) [3, 1, 0] then
              Except.error (ProbeError.unsupportedToolVersion
                ("CMake >= 3.1.0 is required on Windows"))
            else Except.ok ()
      else Except.ok ()

/-! ## PlatformConfigBuilder / JobCountResolver:
`PSPBuild.build_extension_cmake`, lines 157-228 -/

/-- The inputs `build_extension_cmake` draws on.  Each field records the
Python expression it stands for. -/
structure BuildInputs where
  /-- `os.path.abspath(os.path.dirname(self.get_ext_fullpath(ext.name)))` -/
  extdir : String
  /-- `ext.sourcedir` -/
  sourcedir : String
  /-- `sys.executable` -/
  executable : String
  /-- `sys.prefix` -/
  sysRootDir : String
  /-- `self.debug` -/
  debug : Bool
  /-- `sys.version_info.major` -/
  pyMajor : Nat
  /-- `sys.version_info.minor` -/
  pyMinor : Nat
  /-- whether `platform.system() == "Windows"` -/
  isWindows : Bool
  /-- `distutils.msvccompiler.get_build_version()` (stringified) -/
  msvcBuildVersion : String
  /-- `os.environ.get("PSP_GENERATOR")`: `none` when the variable is unset -/
  pspGenerator : Option String
  /-- whether `sys.maxsize > 2 ** 32` -/
  maxsize64 : Bool
  /-- `os.environ.get("DOCKER")`: `none` when the variable is unset -/
  docker : Option String
  /-- `CPU_COUNT` (`os.cpu_count()`) -/
  cpuCount : Nat

/-- `cfg = "Debug" if self.debug else "Release"` (line 159). -/
def cfgString (i : BuildInputs) : String :=
  if i.debug then ("Debug") else ("Release")

/-- `PYTHON_VERSION = "{}.{}".format(major, minor)` (line 161). -/
def pythonVersionString (i : BuildInputs) : String :=
  natDecimal i.pyMajor ++ (".") ++ natDecimal i.pyMinor

/-- The `msvc` lookup table with its default (lines 194-198): maps the
detected MSVC build version to a generator name, defaulting to
Visual Studio 15 2017. -/
def msvcGenerator (buildVersion : String) : String :=
  if buildVersion = "12" then ("Visual Studio 12 2013")
  else if buildVersion = "14" then ("Visual Studio 14 2015")
  else if buildVersion = "14.1" then ("Visual Studio 15 2017")
  else ("Visual Studio 15 2017")

/-- `cmake_args` as assembled by lines 163-187 plus the platform-conditional
extension of lines 191-212 (Windows) / line 220 (everything else).
`os.path.abspath` on line 165 is modelled as the identity (see the header
comment). -/
def cmakeArgs (i : BuildInputs) : List String :=
  [ ("-DCMAKE_LIBRARY_OUTPUT_DIRECTORY=") ++
      slashNormalize (osJoin i.isWindows (osJoin i.isWindows i.extdir ("perspective")) ("table")),
    ("-DCMAKE_BUILD_TYPE=") ++ cfgString i,
    ("-DPSP_CPP_BUILD=1"),
    ("-DPSP_WASM_BUILD=0"),
    ("-DPSP_PYTHON_BUILD=1"),
    ("-DPSP_PYTHON_VERSION=") ++ pythonVersionString i,
    ("-DPython_ADDITIONAL_VERSIONS=") ++ pythonVersionString i,
    ("-DPython_FIND_VERSION=") ++ pythonVersionString i,
    slashNormalize (("-DPython_EXECUTABLE=") ++ i.executable),
    slashNormalize (("-DPython_ROOT_DIR=") ++ i.sysRootDir),
    slashNormalize (("-DPython_ROOT=") ++ i.sysRootDir),
    slashNormalize (("-DPSP_CMAKE_MODULE_PATH=") ++ osJoin i.isWindows i.sourcedir ("cmake")),
    slashNormalize (("-DPSP_CPP_SRC=") ++ i.sourcedir),
    ("-DPSP_PYTHON_SRC=") ++
      slashNormalize (osJoin i.isWindows (osJoin i.isWindows i.sourcedir ("..")) ("perspective")) ]
  ++
  (if i.isWindows then
      [ slashNormalize (("-DCMAKE_LIBRARY_OUTPUT_DIRECTORY_") ++ strUpper (cfgString i) ++
          ("=") ++ i.extdir),
        ("-G"),
        i.pspGenerator.getD (msvcGenerator i.msvcBuildVersion) ]
      ++ (if i.maxsize64 then [("-A"), ("x64")] else [])
    else [("-DCMAKE_BUILD_TYPE=") ++ cfgString i])

/-- `build_args` as assembled by line 189 plus lines 214-218 (Windows) /
lines 221-224 (everything else).  `os.environ.get("DOCKER", "")` is truthy
exactly when the variable is set to a nonempty string. -/
def buildArgs (i : BuildInputs) : List String :=
  [("--config"), cfgString i]
  ++
  (if i.isWindows then
      [("--"), ("/m:") ++ natDecimal i.cpuCount, ("/p:Configuration=") ++ cfgString i]
    else
      [("--"),
        if !((i.docker.getD ("")) == ("")) then ("-j2")
        else ("-j") ++ natDecimal i.cpuCount])

/-- Modelled from the spec: the `JobCountResolver` policy as section 4.4
words it ("if the constrained flag is set, always returns a fixed low
degree (2) regardless of CPU count; otherwise returns the full logical CPU
count").  Used to compare the spec's policy with the code's `buildArgs`. -/
def jobCountResolver (cpuCount : Nat) (constrained : Bool) : Nat :=
  if constrained then 2 else cpuCount

/-- Functional update of an environment mapping: `env[k] = v`. -/
def updateEnv (e : String → Option String) (k v : String) : String → Option String :=
  fun x => if x = k then some v else e x

/-- The environment handed to both `subprocess.check_call`s (lines 226-228):
`env = os.environ.copy()`, then `env["PSP_ENABLE_PYTHON"] = "1"`, then
`env["OSX_DEPLOYMENT_TARGET"] = "10.9"`. -/
def subprocessEnv (ambient : String → Option String) : String → Option String :=
  updateEnv (updateEnv ambient ("PSP_ENABLE_PYTHON") ("1")) ("OSX_DEPLOYMENT_TARGET") ("10.9")

/-! ## BuildExecutor: the two `subprocess.check_call`s, lines 233-244 -/

/-- What an invoked external process does: its exit code and the combined
stdout/stderr text it emits (`stderr=subprocess.STDOUT` merges the streams;
`check_call` does not capture them, they flow to the parent's stdout). -/
structure ProcOutcome where
  exitCode : Int
  output : String

/-- Scripted behavior of the external tool for one build: what the configure
invocation does and what the build invocation does. -/
structure ToolBehavior where
  configure : ProcOutcome
  build : ProcOutcome

/-- Model of `subprocess.CalledProcessError`: the command, the return code,
and the captured output, which is `None` for `check_call` because it does
not redirect stdout. -/
structure CalledProcessError where
  returncode : Int
  cmd : List String
  output : Option String
  deriving DecidableEq

/-- Model of `str(CalledProcessError)` for a nonnegative return code:
`"Command '%s' returned non-zero exit status %d."`, built only from the
command and the return code.  Python's repr-quoting of the command list is
abstracted to a plain comma intercalation; the negative-code
("died with signal") variant never mentions the output either. -/
def cpeMessage (e : CalledProcessError) : String :=
  ("Command [") ++ joinWith (", ") e.cmd ++ ("] returned non-zero exit status ") ++
    intDecimal e.returncode ++ (".")

/-- Model of `subprocess.check_call(cmd, ...)` given what the spawned process
does: raise `CalledProcessError(retcode, cmd)` on a nonzero exit, return
`None` otherwise. -/
def checkCall (cmd : List String) (p : ProcOutcome) : Except CalledProcessError Unit :=
  if p.exitCode = 0 then Except.ok () else Except.error ⟨p.exitCode, cmd, none⟩

/-- The two external process invocations, for trace bookkeeping. -/
inductive BuildStep
  | configure
  | build
  deriving DecidableEq

/-- `[self.cmake_cmd, os.path.abspath(ext.sourcedir)] + cmake_args`
(line 234); `sourcedirAbs` stands for the `abspath` result. -/
def configureCmdLine (i : BuildInputs) (cmakeCmd sourcedirAbs : String) : List String :=
  [cmakeCmd, sourcedirAbs] ++ cmakeArgs i

/-- `[self.cmake_cmd, "--build", "."] + build_args` (line 240). -/
def buildCmdLine (i : BuildInputs) (cmakeCmd : String) : List String :=
  [cmakeCmd, ("--build"), (".")] ++ buildArgs i

/-- The sequential configure/build execution of lines 233-244: the first
`check_call` raising aborts the method before the second one runs.  Returns
the outcome together with the list of process invocations that were actually
spawned, in order. -/
def runBuildSteps (i : BuildInputs) (cmakeCmd sourcedirAbs : String) (tb : ToolBehavior) :
    Except CalledProcessError Unit × List BuildStep :=
  match checkCall (configureCmdLine i cmakeCmd sourcedirAbs) tb.configure with
  | Except.error e => (Except.error e, [BuildStep.configure])
  | Except.ok _ =>
      match checkCall (buildCmdLine i cmakeCmd) tb.build with
      | Except.error e => (Except.error e, [BuildStep.configure, BuildStep.build])
      | Except.ok _ => (Except.ok (), [BuildStep.configure, BuildStep.build])

/-! ## ArtifactPreflightChecker: `PSPCheckSDist.run_check`, lines 256-272 -/

/-- Which prerequisite phase produces an artifact, determining the remedial
command in the error message. -/
inductive OwningPhase
  | nativeBuild
  | scriptBuild
  deriving DecidableEq

/-- The remedial command named for each phase. -/
def phaseCmd : OwningPhase → String
  | OwningPhase.nativeBuild => "yarn build_python"
  | OwningPhase.scriptBuild => "yarn build_js"

/-- The trailing description of each phase's message. -/
def phaseWhat : OwningPhase → String
  | OwningPhase.nativeBuild => "cmake"
  | OwningPhase.scriptBuild => "extension js"

/-- The exact message of the `Exception` raised for a missing path
(lines 260-264 and 268-272). -/
def missingMessage (ph : OwningPhase) (path : String) : String :=
  ("Path is missing! ") ++ path ++ ("\nMust run `") ++ phaseCmd ph ++
    ("` before building sdist so ") ++ phaseWhat ph ++ (" files are installed")

/-- One `for file in (...)` loop of `run_check`: test each path in order
against the existence predicate `ex`, raising on the first miss.  Also
returns the list of paths that were actually tested, in order. -/
def checkLoop (ex : String → Bool) (mkPath : String → String) (ph : OwningPhase) :
    List String → Except String Unit × List String
  | [] => (Except.ok (), [])
  | f :: fs =>
      let path := mkPath f
      if ex path then
        let r := checkLoop ex mkPath ph fs
        (r.1, path :: r.2)
      else (Except.error (missingMessage ph path), [path])

/-- `PSPCheckSDist.run_check`: the cmake triple under `here/dist` first
(remedy `yarn build_python`), then the two js artifacts under
`here/perspective` (remedy `yarn build_js`).  `os.path.abspath` is modelled
as the identity (`here` is already absolute, the components are relative and
contain no `..`).  Returns the outcome and the ordered list of paths whose
existence was tested. -/
def runCheck (isWin : Bool) (here : String) (ex : String → Bool) :
    Except String Unit × List String :=
  let r1 := checkLoop ex (fun f => osJoin isWin (osJoin isWin here ("dist")) f)
      OwningPhase.nativeBuild [("CMakeLists.txt"), ("cmake"), ("src")]
  match r1.1 with
  | Except.error e => (Except.error e, r1.2)
  | Except.ok _ =>
      let r2 := checkLoop ex (fun f => osJoin isWin (osJoin isWin here ("perspective")) f)
          OwningPhase.scriptBuild [("labextension/package.json"), ("nbextension/index.js")]
      (r2.1, r1.2 ++ r2.2)

/-- The fixed ordered requirement list `run_check` walks, with each
requirement's full path and owning phase, in declaration order. -/
def sdistRequirements (isWin : Bool) (here : String) : List (String × OwningPhase) :=
  [ (osJoin isWin (osJoin isWin here ("dist")) ("CMakeLists.txt"), OwningPhase.nativeBuild),
    (osJoin isWin (osJoin isWin here ("dist")) ("cmake"), OwningPhase.nativeBuild),
    (osJoin isWin (osJoin isWin here ("dist")) ("src"), OwningPhase.nativeBuild),
    (osJoin isWin (osJoin isWin here ("perspective")) ("labextension/package.json"),
      OwningPhase.scriptBuild),
    (osJoin isWin (osJoin isWin here ("perspective")) ("nbextension/index.js"),
      OwningPhase.scriptBuild) ]

/-- First requirement of the list, in order, whose path fails the existence
predicate. -/
def firstMissing (ex : String → Bool) : List (String × OwningPhase) → Option (String × OwningPhase)
  | [] => none
  | r :: rs => if ex r.1 then firstMissing ex rs else some r

/-! ## Concrete sample inputs used by witnesses and counterexamples -/

/-- A representative non-Windows build input. -/
def sampleInputs : BuildInputs :=
  { extdir := "/build/lib", sourcedir := "/repo/dist", executable := "/usr/bin/python3",
    sysRootDir := "/usr", debug := false, pyMajor := 3, pyMinor := 6, isWindows := false,
    msvcBuildVersion := "", pspGenerator := none, maxsize64 := true, docker := none,
    cpuCount := 8 }

/-- A Windows build input with the constrained-environment variable set. -/
def winInputs : BuildInputs :=
  { extdir := "/build/lib", sourcedir := "/repo/dist", executable := "/usr/bin/python3",
    sysRootDir := "/usr", debug := false, pyMajor := 3, pyMinor := 6, isWindows := true,
    msvcBuildVersion := "14", pspGenerator := none, maxsize64 := true, docker := some ("1"),
    cpuCount := 8 }

/-! ## Helper lemmas -/

theorem dataAppend (a b : String) : (a ++ b).data = a.data ++ b.data := rfl

theorem hasBackslash_append (a b : String) :
    hasBackslash (a ++ b) = (hasBackslash a || hasBackslash b) := by
  unfold hasBackslash
  rw [dataAppend, List.any_append]

theorem hasBackslash_slashNormalize (s : String) : hasBackslash (slashNormalize s) = false := by
  show (s.data.map (fun c => if c == ('\\') then ('/') else c)).any
      (fun c => c == ('\\')) = false
  induction s.data with
  | nil => rfl
  | cons c t ih =>
      simp only [List.map_cons, List.any_cons, ih, Bool.or_false]
      by_cases hc : (c == ('\\')) = true
      · rw [if_pos hc]; rfl
      · rw [if_neg hc]
        simp only [Bool.not_eq_true] at hc
        exact hc

theorem slashNormalize_append (a b : String) :
    slashNormalize (a ++ b) = slashNormalize a ++ slashNormalize b := by
  show String.mk ((a.data ++ b.data).map (fun c => if c == ('\\') then ('/') else c)) =
      String.mk (a.data.map (fun c => if c == ('\\') then ('/') else c) ++
        b.data.map (fun c => if c == ('\\') then ('/') else c))
  rw [List.map_append]

theorem digitOf_ne_backslash (d : Nat) (hd : d < 10) : (digitOf d == ('\\')) = false := by
  unfold digitOf
  interval_cases d <;> decide

theorem decimalDigitsAux_no_backslash (fuel n : Nat) :
    (decimalDigitsAux fuel n).any (fun c => c == ('\\')) = false := by
  induction fuel generalizing n with
  | zero => rfl
  | succ f ih =>
      unfold decimalDigitsAux
      by_cases h : n < 10
      · rw [if_pos h]
        simp [digitOf_ne_backslash n h]
      · rw [if_neg h]
        rw [List.any_append, ih (n / 10)]
        simp [digitOf_ne_backslash (n % 10) (Nat.mod_lt _ (by decide))]

theorem natDecimal_no_backslash (n : Nat) : hasBackslash (natDecimal n) = false := by
  show (decimalDigitsAux (n + 1) n).any (fun c => c == ('\\')) = false
  exact decimalDigitsAux_no_backslash (n + 1) n

theorem pythonVersionString_no_backslash (i : BuildInputs) :
    hasBackslash (pythonVersionString i) = false := by
  unfold pythonVersionString
  rw [hasBackslash_append, hasBackslash_append, natDecimal_no_backslash,
    natDecimal_no_backslash]
  rfl

theorem msvcGenerator_no_backslash (v : String) : hasBackslash (msvcGenerator v) = false := by
  unfold msvcGenerator
  by_cases h1 : v = "12"
  · rw [if_pos h1]; rfl
  · rw [if_neg h1]
    by_cases h2 : v = "14"
    · rw [if_pos h2]; rfl
    · rw [if_neg h2]
      by_cases h3 : v = "14.1"
      · rw [if_pos h3]; rfl
      · rw [if_neg h3]; rfl

theorem appendNeAppend (a u b v : String) (n : Nat)
    (ha : n < a.data.length) (hb : n < b.data.length)
    (hne : a.data.getD n (' ') ≠ b.data.getD n (' ')) : a ++ u ≠ b ++ v := by
  intro he
  apply hne
  have hd : a.data ++ u.data = b.data ++ v.data := congrArg String.data he
  calc a.data.getD n (' ')
      = (a.data ++ u.data).getD n (' ') := (List.getD_append _ _ _ _ ha).symm
    _ = (b.data ++ v.data).getD n (' ') := by rw [hd]
    _ = b.data.getD n (' ') := List.getD_append _ _ _ _ hb

theorem appendNeLit (a u b : String) (n : Nat)
    (ha : n < a.data.length) (_hb : n < b.data.length)
    (hne : a.data.getD n (' ') ≠ b.data.getD n (' ')) : a ++ u ≠ b := by
  intro he
  apply hne
  have hd : a.data ++ u.data = b.data := congrArg String.data he
  calc a.data.getD n (' ')
      = (a.data ++ u.data).getD n (' ') := (List.getD_append _ _ _ _ ha).symm
    _ = b.data.getD n (' ') := by rw [hd]

theorem listStartsWith_getD (p l : List Char) (h : listStartsWith p l = true)
    (n : Nat) (hn : n < p.length) : p.getD n (' ') = l.getD n (' ') := by
  induction p generalizing l n with
  | nil => simp at hn
  | cons c ps ih =>
      cases l with
      | nil => simp [listStartsWith] at h
      | cons d ls =>
          simp only [listStartsWith, Bool.and_eq_true, beq_iff_eq] at h
          cases n with
          | zero => simpa using h.1
          | succ m =>
              show ps.getD m (' ') = ls.getD m (' ')
              exact ih ls h.2 m (by simpa using hn)

theorem startsNeAt (p a u : String) (n : Nat)
    (hp : n < p.data.length) (ha : n < a.data.length)
    (hne : p.data.getD n (' ') ≠ a.data.getD n (' ')) :
    ¬ (listStartsWith p.data (a.data ++ u.data) = true) := by
  intro hsw
  apply hne
  have h1 := listStartsWith_getD _ _ hsw n hp
  rw [h1]
  exact List.getD_append a.data u.data (' ') n ha

theorem listStartsWith_self_append (p r : List Char) : listStartsWith p (p ++ r) = true := by
  induction p with
  | nil => rfl
  | cons c t ih => simp [listStartsWith, ih]

theorem occursIn_here (p r : List Char) : occursIn p (p ++ r) = true := by
  cases p with
  | nil =>
      cases r with
      | nil => rfl
      | cons c t => simp [occursIn, listStartsWith]
  | cons c t =>
      show (listStartsWith (c :: t) ((c :: t) ++ r) || occursIn (c :: t) (t ++ r)) = true
      rw [listStartsWith_self_append]
      rfl

theorem occursIn_append (p pre suf : List Char) : occursIn p (pre ++ (p ++ suf)) = true := by
  induction pre with
  | nil => simpa using occursIn_here p suf
  | cons c t ih =>
      show occursIn p (c :: (t ++ (p ++ suf))) = true
      simp [occursIn, ih]

/-! ## Claim C1 -/

/-- A scripted tool behavior whose configure step exits 1 after emitting the
marker text `XYZZYOUT`. -/
def failingConfigure : ToolBehavior :=
  ⟨⟨1, "XYZZYOUT"⟩, ⟨0, ""⟩⟩

set_option maxRecDepth 100000 in
/-- C1 (counterexample): with a configure step that exits 1 after emitting
`XYZZYOUT`, the raised `CalledProcessError` captures no output at all
(`check_call` leaves `output = None`) and its message does not contain the
tool's emitted text, contradicting the claim that the error's message
payload carries the full combined output verbatim. -/
theorem c1_counterexample :
    (runBuildSteps sampleInputs ("cmake") ("/repo/dist") failingConfigure).1 =
      Except.error ⟨1, configureCmdLine sampleInputs ("cmake") ("/repo/dist"), none⟩ ∧
    (⟨1, configureCmdLine sampleInputs ("cmake") ("/repo/dist"), none⟩ :
        CalledProcessError).output = none ∧
    occursIn ("XYZZYOUT").data
      (cpeMessage ⟨1, configureCmdLine sampleInputs ("cmake") ("/repo/dist"), none⟩).data
      = false :=
  ⟨rfl, rfl, by decide⟩

/-- C1 (amended): either step exiting nonzero raises a `CalledProcessError`
carrying the failed command and its exit code, with `output = None`: the
tool's combined stdout/stderr is streamed to the parent's stdout
(`stderr=subprocess.STDOUT`), not stored in the error. -/
theorem c1_amended_error_payload (i : BuildInputs) (cmakeCmd sourcedirAbs : String)
    (tb : ToolBehavior) :
    (tb.configure.exitCode ≠ 0 →
      (runBuildSteps i cmakeCmd sourcedirAbs tb).1 =
        Except.error ⟨tb.configure.exitCode, configureCmdLine i cmakeCmd sourcedirAbs, none⟩) ∧
    (tb.configure.exitCode = 0 → tb.build.exitCode ≠ 0 →
      (runBuildSteps i cmakeCmd sourcedirAbs tb).1 =
        Except.error ⟨tb.build.exitCode, buildCmdLine i cmakeCmd, none⟩) := by
  constructor
  · intro hc
    unfold runBuildSteps checkCall
    rw [if_neg hc]
  · intro hc hb
    unfold runBuildSteps checkCall
    rw [if_pos hc, if_neg hb]

/-- C1 witness: the amended theorem applied to a concrete failing configure
step. -/
theorem c1_amended_witness :
    (runBuildSteps sampleInputs ("cmake") ("/repo/dist") failingConfigure).1 =
      Except.error ⟨1, configureCmdLine sampleInputs ("cmake") ("/repo/dist"), none⟩ :=
  (c1_amended_error_payload sampleInputs ("cmake") ("/repo/dist") failingConfigure).1
    (by decide)

/-! ## Claim C2 -/

/-- C2 (counterexample): when `cmake --version` exits 1, the probe fails with
the uncaught `CalledProcessError`, not with the `ToolNotFound` RuntimeError
the claim promises (the `except` clause only catches `OSError`). -/
theorem c2_counterexample :
    runCmakeProbe (SpawnResult.exited 1 ("some banner")) false [("perspective")] =
      Except.error (ProbeError.calledProcessError 1) ∧
    ProbeError.calledProcessError 1 ≠
      ProbeError.toolNotFound
        ("CMake must be installed to build the following extensions: perspective") :=
  ⟨rfl, by decide⟩

/-- C2 (amended): an absent executable (`OSError` from the spawn) makes the
probe fail with the `ToolNotFound` RuntimeError naming CMake; a nonzero exit
instead propagates as `CalledProcessError`.  Either way the probe returns an
error, aborting the build before any configure step. -/
theorem c2_amended_probe_failure_modes (isWindows : Bool) (extNames : List String)
    (code : Int) (out : String) (h : code ≠ 0) :
    runCmakeProbe SpawnResult.osError isWindows extNames =
      Except.error (ProbeError.toolNotFound
        (("CMake must be installed to build the following extensions: ") ++
          joinWith (", ") extNames)) ∧
    runCmakeProbe (SpawnResult.exited code out) isWindows extNames =
      Except.error (ProbeError.calledProcessError code) := by
  constructor
  · rfl
  · simp only [runCmakeProbe]
    rw [if_pos h]

/-- C2 witness: the amended theorem at a concrete nonzero exit code. -/
theorem c2_amended_witness :
    runCmakeProbe SpawnResult.osError false [("perspective")] =
      Except.error (ProbeError.toolNotFound
        (("CMake must be installed to build the following extensions: ") ++
          joinWith (", ") [("perspective")])) ∧
    runCmakeProbe (SpawnResult.exited 1 ("")) false [("perspective")] =
      Except.error (ProbeError.calledProcessError 1) :=
  c2_amended_probe_failure_modes false [("perspective")] 1 ("") (by decide)

/-! ## Claim C5 -/

/-- C5 (confirmed): when the configure-step process exits nonzero, the
sequence of spawned processes is exactly `[configure]`, so the build-step
process is never spawned. -/
theorem c5_configure_failure_short_circuits (i : BuildInputs)
    (cmakeCmd sourcedirAbs : String) (tb : ToolBehavior)
    (h : tb.configure.exitCode ≠ 0) :
    (runBuildSteps i cmakeCmd sourcedirAbs tb).2 = [BuildStep.configure] ∧
    BuildStep.build ∉ (runBuildSteps i cmakeCmd sourcedirAbs tb).2 := by
  have hr : (runBuildSteps i cmakeCmd sourcedirAbs tb).2 = [BuildStep.configure] := by
    unfold runBuildSteps checkCall
    rw [if_neg h]
  refine ⟨hr, ?_⟩
  rw [hr]
  decide

/-- C5 witness: the short-circuit at a concrete failing configure step. -/
theorem c5_witness :
    (runBuildSteps sampleInputs ("cmake") ("/repo/dist") failingConfigure).2 =
      [BuildStep.configure] ∧
    BuildStep.build ∉ (runBuildSteps sampleInputs ("cmake") ("/repo/dist") failingConfigure).2 :=
  c5_configure_failure_short_circuits sampleInputs ("cmake") ("/repo/dist") failingConfigure
    (by decide)

/-! ## Claim C7 -/

/-- C7 (confirmed): on Windows, a banner parsing to a version below `3.1.0`
in the `LooseVersion` order makes the probe fail with the
`UnsupportedToolVersion` RuntimeError, and a version not below `3.1.0`
(in particular exactly `3.1.0`) is accepted; on any other platform the probe
accepts without even parsing the banner, so no minimum is enforced. -/
theorem c7_windows_version_threshold (out : String) (v : List Char)
    (extNames : List String) (hparse : searchVersion out.data = some v) :
    (if natListLt (looseComponents v) [3, 1, 0] then
        runCmakeProbe (SpawnResult.exited 0 out) true extNames =
          Except.error (ProbeError.unsupportedToolVersion
            ("CMake >= 3.1.0 is required on Windows"))
      else runCmakeProbe (SpawnResult.exited 0 out) true extNames = Except.ok ()) ∧
    runCmakeProbe (SpawnResult.exited 0 out) false extNames = Except.ok () := by
  constructor
  · cases hlt : natListLt (looseComponents v) [3, 1, 0] with
    | true =>
        rw [if_pos rfl]
        simp [runCmakeProbe, hparse, hlt]
    | false =>
        rw [if_neg (by simp)]
        simp [runCmakeProbe, hparse, hlt]
  · rfl

/-- C7 witness: a banner carrying exactly version 3.1.0 is accepted on
Windows and on other platforms. -/
theorem c7_witness :
    (if natListLt (looseComponents [('3'), ('.'), ('1'), ('.'), ('0')]) [3, 1, 0] then
        runCmakeProbe (SpawnResult.exited 0 ("cmake version 3.1.0")) true [("perspective")] =
          Except.error (ProbeError.unsupportedToolVersion
            ("CMake >= 3.1.0 is required on Windows"))
      else runCmakeProbe (SpawnResult.exited 0 ("cmake version 3.1.0")) true [("perspective")] =
        Except.ok ()) ∧
    runCmakeProbe (SpawnResult.exited 0 ("cmake version 3.1.0")) false [("perspective")] =
      Except.ok () :=
  c7_windows_version_threshold ("cmake version 3.1.0") [('3'), ('.'), ('1'), ('.'), ('0')]
    [("perspective")] (by decide)

/-! ## Claim C8 -/

/-- C8 (counterexample): a banner from which no version can be parsed makes
the Windows probe raise (the `AttributeError` from calling `.group(1)` on
`None`) instead of yielding any "unknown version" sentinel. -/
theorem c8_counterexample :
    searchVersion ("no banner text here").data = none ∧
    runCmakeProbe (SpawnResult.exited 0 ("no banner text here")) true [("perspective")] =
      Except.error ProbeError.attributeError :=
  ⟨by decide, rfl⟩

/-- C8 (amended): on Windows an unparsable banner makes the probe raise the
`AttributeError` of `.group(1)` on a failed match — there is no sentinel
value; on any other platform the banner is never parsed at all and the probe
succeeds. -/
theorem c8_amended_unparsable_banner (out : String) (extNames : List String)
    (h : searchVersion out.data = none) :
    runCmakeProbe (SpawnResult.exited 0 out) true extNames =
      Except.error ProbeError.attributeError ∧
    runCmakeProbe (SpawnResult.exited 0 out) false extNames = Except.ok () := by
  constructor
  · simp [runCmakeProbe, h]
  · rfl

/-- C8 witness: the amended theorem at a concrete unparsable banner. -/
theorem c8_amended_witness :
    runCmakeProbe (SpawnResult.exited 0 ("mystery output")) true [("perspective")] =
      Except.error ProbeError.attributeError ∧
    runCmakeProbe (SpawnResult.exited 0 ("mystery output")) false [("perspective")] =
      Except.ok () :=
  c8_amended_unparsable_banner ("mystery output") [("perspective")] (by decide)

/-! ## Claim C9 -/

/-- An ambient process environment in which the deployment-target variable
is set to `11.0`. -/
def ambientWithTarget : String → Option String :=
  fun k => if k = "OSX_DEPLOYMENT_TARGET" then some ("11.0") else none

/-- C9 (counterexample): with the ambient environment carrying
`OSX_DEPLOYMENT_TARGET=11.0`, the environment handed to the external tool
carries `10.9` instead — the ambient value is not passed through. -/
theorem c9_counterexample :
    ambientWithTarget ("OSX_DEPLOYMENT_TARGET") = some ("11.0") ∧
    subprocessEnv ambientWithTarget ("OSX_DEPLOYMENT_TARGET") = some ("10.9") ∧
    (some ("10.9") : Option String) ≠ some ("11.0") :=
  ⟨rfl, rfl, by decide⟩

/-- C9 (amended): the deployment-target variable is not consumed from the
ambient environment at all: the subprocess environment unconditionally binds
`OSX_DEPLOYMENT_TARGET` to the fixed value `10.9` (and `PSP_ENABLE_PYTHON`
to `1`), whatever the ambient environment holds. -/
theorem c9_amended_deployment_target_fixed (ambient : String → Option String) :
    subprocessEnv ambient ("OSX_DEPLOYMENT_TARGET") = some ("10.9") ∧
    subprocessEnv ambient ("PSP_ENABLE_PYTHON") = some ("1") :=
  ⟨rfl, rfl⟩

/-! ## Claim C3 -/

/-- C3 (counterexample): on Windows with the `DOCKER` variable set and 8
CPUs, the build step is passed `/m:8` — the full CPU count — and no
parallelism degree of 2 appears anywhere, contradicting the claim that the
constrained flag forces degree 2 on every platform. -/
theorem c3_counterexample :
    winInputs.docker = some ("1") ∧ winInputs.cpuCount = 8 ∧
    buildArgs winInputs =
      [("--config"), ("Release"), ("--"), ("/m:8"), ("/p:Configuration=Release")] ∧
    ("-j2") ∉ buildArgs winInputs ∧ ("/m:2") ∉ buildArgs winInputs :=
  ⟨rfl, rfl, by decide, by decide, by decide⟩

/-- C3 (amended): the `JobCountResolver` policy (degree 2 when constrained,
the full CPU count otherwise) governs only the non-Windows branch, where the
constrained flag means `DOCKER` is set to a nonempty string; on Windows the
degree is always the full CPU count (`/m:N`) and `DOCKER` is ignored. -/
theorem c3_amended_parallelism_degree (i : BuildInputs) :
    (if i.isWindows then ("/m:") ++ natDecimal i.cpuCount
      else ("-j") ++ natDecimal (jobCountResolver i.cpuCount (!((i.docker.getD ("")) == ("")))))
      ∈ buildArgs i := by
  unfold buildArgs jobCountResolver
  cases hw : i.isWindows with
  | true => simp
  | false =>
      cases hd : (i.docker.getD ("")) == ("") with
      | true => simp
      | false =>
          have h2 : ("-j") ++ natDecimal 2 = ("-j2") := by decide
          simp [h2]

/-! ## Claim C4 -/

theorem cfgString_no_backslash (i : BuildInputs) : hasBackslash (cfgString i) = false := by
  unfold cfgString
  by_cases h : i.debug = true
  · rw [if_pos h]; rfl
  · rw [if_neg h]; rfl

theorem strUpper_cfgString_no_backslash (i : BuildInputs) :
    hasBackslash (strUpper (cfgString i)) = false := by
  unfold cfgString
  by_cases h : i.debug = true
  · rw [if_pos h]; rfl
  · rw [if_neg h]; rfl

/-- C4 (confirmed): with the generator-override variable unset, every string
of the assembled configure argument list is free of backslash characters,
on every platform and for arbitrary input paths: each path-derived
parameter passes through the `replace("\\", "/")` normalization and every
other parameter is built from backslash-free literals and decimal
numbers. -/
theorem c4_no_backslash_in_configure_args (i : BuildInputs)
    (hg : i.pspGenerator = none) :
    (cmakeArgs i).all (fun a => !(hasBackslash a)) = true := by
  rw [List.all_eq_true]
  intro a ha
  rw [Bool.not_eq_true']
  unfold cmakeArgs at ha
  rw [hg] at ha
  cases hw : i.isWindows <;> rw [hw] at ha
  case false =>
      simp only [Bool.false_eq_true, if_false, List.mem_append, List.mem_cons,
        List.mem_singleton, List.not_mem_nil, or_false] at ha
      rcases ha with (rfl | rfl | rfl | rfl | rfl | rfl | rfl | rfl | rfl | rfl | rfl | rfl | rfl | rfl) | rfl
      · rw [hasBackslash_append, hasBackslash_slashNormalize]; decide
      · rw [hasBackslash_append, cfgString_no_backslash]; decide
      · decide
      · decide
      · decide
      · rw [hasBackslash_append, pythonVersionString_no_backslash]; decide
      · rw [hasBackslash_append, pythonVersionString_no_backslash]; decide
      · rw [hasBackslash_append, pythonVersionString_no_backslash]; decide
      · exact hasBackslash_slashNormalize _
      · exact hasBackslash_slashNormalize _
      · exact hasBackslash_slashNormalize _
      · exact hasBackslash_slashNormalize _
      · exact hasBackslash_slashNormalize _
      · rw [hasBackslash_append, hasBackslash_slashNormalize]; decide
      · rw [hasBackslash_append, cfgString_no_backslash]; decide
  case true =>
      cases hm : i.maxsize64 <;> rw [hm] at ha
      case false =>
          simp only [if_true, Bool.false_eq_true, if_false, List.append_nil,
            List.mem_append, List.mem_cons, List.mem_singleton, List.not_mem_nil,
            or_false] at ha
          rcases ha with (rfl | rfl | rfl | rfl | rfl | rfl | rfl | rfl | rfl | rfl | rfl | rfl | rfl | rfl) | (rfl | rfl | rfl)
          · rw [hasBackslash_append, hasBackslash_slashNormalize]; decide
          · rw [hasBackslash_append, cfgString_no_backslash]; decide
          · decide
          · decide
          · decide
          · rw [hasBackslash_append, pythonVersionString_no_backslash]; decide
          · rw [hasBackslash_append, pythonVersionString_no_backslash]; decide
          · rw [hasBackslash_append, pythonVersionString_no_backslash]; decide
          · exact hasBackslash_slashNormalize _
          · exact hasBackslash_slashNormalize _
          · exact hasBackslash_slashNormalize _
          · exact hasBackslash_slashNormalize _
          · exact hasBackslash_slashNormalize _
          · rw [hasBackslash_append, hasBackslash_slashNormalize]; decide
          · exact hasBackslash_slashNormalize _
          · decide
          · exact msvcGenerator_no_backslash _
      case true =>
          simp only [if_true, List.mem_append, List.mem_cons, List.mem_singleton,
            List.not_mem_nil, or_false] at ha
          rcases ha with (rfl | rfl | rfl | rfl | rfl | rfl | rfl | rfl | rfl | rfl | rfl | rfl | rfl | rfl) | ((rfl | rfl | rfl) | (rfl | rfl))
          · rw [hasBackslash_append, hasBackslash_slashNormalize]; decide
          · rw [hasBackslash_append, cfgString_no_backslash]; decide
          · decide
          · decide
          · decide
          · rw [hasBackslash_append, pythonVersionString_no_backslash]; decide
          · rw [hasBackslash_append, pythonVersionString_no_backslash]; decide
          · rw [hasBackslash_append, pythonVersionString_no_backslash]; decide
          · exact hasBackslash_slashNormalize _
          · exact hasBackslash_slashNormalize _
          · exact hasBackslash_slashNormalize _
          · exact hasBackslash_slashNormalize _
          · exact hasBackslash_slashNormalize _
          · rw [hasBackslash_append, hasBackslash_slashNormalize]; decide
          · exact hasBackslash_slashNormalize _
          · decide
          · exact msvcGenerator_no_backslash _
          · decide
          · decide

/-- C4 witness: the theorem at a concrete non-Windows input. -/
theorem c4_witness :
    sampleInputs.pspGenerator = none ∧
    (cmakeArgs sampleInputs).all (fun a => !(hasBackslash a)) = true :=
  ⟨rfl, c4_no_backslash_in_configure_args sampleInputs rfl⟩

/-! ## Claim C6 -/

theorem occursIn_append_left (pat x l : List Char) (h : occursIn pat l = true) :
    occursIn pat (x ++ l) = true := by
  induction x with
  | nil => simpa using h
  | cons c t ih =>
      show occursIn pat (c :: (t ++ l)) = true
      simp [occursIn, ih]

theorem missingMessage_names_path (ph : OwningPhase) (p : String) :
    occursIn p.data (missingMessage ph p).data = true := by
  unfold missingMessage
  simp only [dataAppend, List.append_assoc]
  exact occursIn_append_left _ _ _ (occursIn_here _ _)

theorem missingMessage_names_cmd (ph : OwningPhase) (p : String) :
    occursIn (phaseCmd ph).data (missingMessage ph p).data = true := by
  unfold missingMessage
  simp only [dataAppend, List.append_assoc]
  exact occursIn_append_left _ _ _ (occursIn_append_left _ _ _
    (occursIn_append_left _ _ _ (occursIn_here _ _)))

/-- C6 (confirmed): whenever at least one of the five ordered artifact
requirements is missing, `run_check` raises on the first missing one in
declaration order: the error is exactly the `MissingArtifact` message naming
that path, the message contains the path and the remedial command of its
owning phase verbatim, and the paths whose existence was tested are exactly
the passing prefix plus the first missing path — nothing after it is ever
checked. -/
theorem c6_preflight_fails_fast (isWin : Bool) (here : String) (ex : String → Bool)
    (p : String) (ph : OwningPhase)
    (h : firstMissing ex (sdistRequirements isWin here) = some (p, ph)) :
    (runCheck isWin here ex).1 = Except.error (missingMessage ph p) ∧
    occursIn p.data (missingMessage ph p).data = true ∧
    occursIn (phaseCmd ph).data (missingMessage ph p).data = true ∧
    (runCheck isWin here ex).2 =
      (((sdistRequirements isWin here).takeWhile (fun r => ex r.1)).map Prod.fst) ++ [p] := by
  have main : (runCheck isWin here ex).1 = Except.error (missingMessage ph p) ∧
      (runCheck isWin here ex).2 =
        (((sdistRequirements isWin here).takeWhile (fun r => ex r.1)).map Prod.fst) ++ [p] := by
    simp only [sdistRequirements, firstMissing] at h
    cases hex1 : ex (osJoin isWin (osJoin isWin here ("dist")) ("CMakeLists.txt")) with
    | false =>
        simp [hex1] at h
        obtain ⟨rfl, rfl⟩ := h
        constructor
        · simp [runCheck, checkLoop, hex1]
        · simp [runCheck, checkLoop, sdistRequirements, List.takeWhile, hex1]
    | true =>
        cases hex2 : ex (osJoin isWin (osJoin isWin here ("dist")) ("cmake")) with
        | false =>
            simp [hex1, hex2] at h
            obtain ⟨rfl, rfl⟩ := h
            constructor
            · simp [runCheck, checkLoop, hex1, hex2]
            · simp [runCheck, checkLoop, sdistRequirements, List.takeWhile, hex1, hex2]
        | true =>
            cases hex3 : ex (osJoin isWin (osJoin isWin here ("dist")) ("src")) with
            | false =>
                simp [hex1, hex2, hex3] at h
                obtain ⟨rfl, rfl⟩ := h
                constructor
                · simp [runCheck, checkLoop, hex1, hex2, hex3]
                · simp [runCheck, checkLoop, sdistRequirements, List.takeWhile,
                    hex1, hex2, hex3]
            | true =>
                cases hex4 : ex (osJoin isWin (osJoin isWin here ("perspective"))
                    ("labextension/package.json")) with
                | false =>
                    simp [hex1, hex2, hex3, hex4] at h
                    obtain ⟨rfl, rfl⟩ := h
                    constructor
                    · simp [runCheck, checkLoop, hex1, hex2, hex3, hex4]
                    · simp [runCheck, checkLoop, sdistRequirements, List.takeWhile,
                        hex1, hex2, hex3, hex4]
                | true =>
                    cases hex5 : ex (osJoin isWin (osJoin isWin here ("perspective"))
                        ("nbextension/index.js")) with
                    | false =>
                        simp [hex1, hex2, hex3, hex4, hex5] at h
                        obtain ⟨rfl, rfl⟩ := h
                        constructor
                        · simp [runCheck, checkLoop, hex1, hex2, hex3, hex4, hex5]
                        · simp [runCheck, checkLoop, sdistRequirements, List.takeWhile,
                            hex1, hex2, hex3, hex4, hex5]
                    | true =>
                        simp [hex1, hex2, hex3, hex4, hex5] at h
  exact ⟨main.1, missingMessage_names_path ph p, missingMessage_names_cmd ph p, main.2⟩

/-- C6 witness: a concrete run with the second requirement missing fails
naming that requirement, and its trace shows the later requirements were
never tested. -/
theorem c6_witness :
    (runCheck false ("/repo") (fun s => !(s == ("/repo/dist/cmake")))).1 =
      Except.error (missingMessage OwningPhase.nativeBuild ("/repo/dist/cmake")) ∧
    occursIn ("/repo/dist/cmake").data
      (missingMessage OwningPhase.nativeBuild ("/repo/dist/cmake")).data = true ∧
    occursIn (phaseCmd OwningPhase.nativeBuild).data
      (missingMessage OwningPhase.nativeBuild ("/repo/dist/cmake")).data = true ∧
    (runCheck false ("/repo") (fun s => !(s == ("/repo/dist/cmake")))).2 =
      (((sdistRequirements false ("/repo")).takeWhile
          (fun r => (fun s => !(s == ("/repo/dist/cmake"))) r.1)).map Prod.fst) ++
        [("/repo/dist/cmake")] :=
  c6_preflight_fails_fast false ("/repo") (fun s => !(s == ("/repo/dist/cmake")))
    ("/repo/dist/cmake") OwningPhase.nativeBuild (by decide)

/-! ## Claim C10 -/

/-- C10 (confirmed): on a non-Windows host, exactly two entries of the
configure argument list carry the `-DCMAKE_BUILD_TYPE` parameter, and both
are the exact string `-DCMAKE_BUILD_TYPE=<cfg>` with the same value
(`Debug` when the debug flag is set, `Release` otherwise): the parameter is
emitted once in the base list and appended a second time by the non-Windows
branch. -/
theorem c10_build_type_twice (i : BuildInputs) (hw : i.isWindows = false) :
    countStarting (cmakeArgs i) ("-DCMAKE_BUILD_TYPE=") = 2 ∧
    countArg (cmakeArgs i) (("-DCMAKE_BUILD_TYPE=") ++ cfgString i) = 2 := by
  have l9 : slashNormalize (("-DPython_EXECUTABLE=") ++ i.executable)
      = ("-DPython_EXECUTABLE=") ++ slashNormalize i.executable := by
    rw [slashNormalize_append,
      (by decide : slashNormalize ("-DPython_EXECUTABLE=") = ("-DPython_EXECUTABLE="))]
  have l10 : slashNormalize (("-DPython_ROOT_DIR=") ++ i.sysRootDir)
      = ("-DPython_ROOT_DIR=") ++ slashNormalize i.sysRootDir := by
    rw [slashNormalize_append,
      (by decide : slashNormalize ("-DPython_ROOT_DIR=") = ("-DPython_ROOT_DIR="))]
  have l11 : slashNormalize (("-DPython_ROOT=") ++ i.sysRootDir)
      = ("-DPython_ROOT=") ++ slashNormalize i.sysRootDir := by
    rw [slashNormalize_append,
      (by decide : slashNormalize ("-DPython_ROOT=") = ("-DPython_ROOT="))]
  have l12 : slashNormalize (("-DPSP_CMAKE_MODULE_PATH=") ++ osJoin false i.sourcedir ("cmake"))
      = ("-DPSP_CMAKE_MODULE_PATH=") ++ slashNormalize (osJoin false i.sourcedir ("cmake")) := by
    rw [slashNormalize_append,
      (by decide : slashNormalize ("-DPSP_CMAKE_MODULE_PATH=") = ("-DPSP_CMAKE_MODULE_PATH="))]
  have l13 : slashNormalize (("-DPSP_CPP_SRC=") ++ i.sourcedir)
      = ("-DPSP_CPP_SRC=") ++ slashNormalize i.sourcedir := by
    rw [slashNormalize_append,
      (by decide : slashNormalize ("-DPSP_CPP_SRC=") = ("-DPSP_CPP_SRC="))]
  unfold cmakeArgs
  rw [hw, if_neg (by decide : ¬ (false = true)), l9, l10, l11, l12, l13]
  simp only [List.cons_append, List.nil_append]
  constructor
  · simp only [countStarting, dataAppend]
    rw [if_neg (startsNeAt ("-DCMAKE_BUILD_TYPE=") ("-DCMAKE_LIBRARY_OUTPUT_DIRECTORY=")
          (slashNormalize (osJoin false (osJoin false i.extdir ("perspective")) ("table")))
          8 (by decide) (by decide) (by decide)),
      if_pos (listStartsWith_self_append ("-DCMAKE_BUILD_TYPE=").data (cfgString i).data),
      if_neg (by decide : ¬ (listStartsWith ("-DCMAKE_BUILD_TYPE=").data
        ("-DPSP_CPP_BUILD=1").data = true)),
      if_neg (by decide : ¬ (listStartsWith ("-DCMAKE_BUILD_TYPE=").data
        ("-DPSP_WASM_BUILD=0").data = true)),
      if_neg (by decide : ¬ (listStartsWith ("-DCMAKE_BUILD_TYPE=").data
        ("-DPSP_PYTHON_BUILD=1").data = true)),
      if_neg (startsNeAt ("-DCMAKE_BUILD_TYPE=") ("-DPSP_PYTHON_VERSION=")
        (pythonVersionString i) 2 (by decide) (by decide) (by decide)),
      if_neg (startsNeAt ("-DCMAKE_BUILD_TYPE=") ("-DPython_ADDITIONAL_VERSIONS=")
        (pythonVersionString i) 2 (by decide) (by decide) (by decide)),
      if_neg (startsNeAt ("-DCMAKE_BUILD_TYPE=") ("-DPython_FIND_VERSION=")
        (pythonVersionString i) 2 (by decide) (by decide) (by decide)),
      if_neg (startsNeAt ("-DCMAKE_BUILD_TYPE=") ("-DPython_EXECUTABLE=")
        (slashNormalize i.executable) 2 (by decide) (by decide) (by decide)),
      if_neg (startsNeAt ("-DCMAKE_BUILD_TYPE=") ("-DPython_ROOT_DIR=")
        (slashNormalize i.sysRootDir) 2 (by decide) (by decide) (by decide)),
      if_neg (startsNeAt ("-DCMAKE_BUILD_TYPE=") ("-DPython_ROOT=")
        (slashNormalize i.sysRootDir) 2 (by decide) (by decide) (by decide)),
      if_neg (startsNeAt ("-DCMAKE_BUILD_TYPE=") ("-DPSP_CMAKE_MODULE_PATH=")
        (slashNormalize (osJoin false i.sourcedir ("cmake"))) 2
        (by decide) (by decide) (by decide)),
      if_neg (startsNeAt ("-DCMAKE_BUILD_TYPE=") ("-DPSP_CPP_SRC=")
        (slashNormalize i.sourcedir) 2 (by decide) (by decide) (by decide)),
      if_neg (startsNeAt ("-DCMAKE_BUILD_TYPE=") ("-DPSP_PYTHON_SRC=")
        (slashNormalize (osJoin false (osJoin false i.sourcedir ("..")) ("perspective"))) 2
        (by decide) (by decide) (by decide))]
  · simp only [countArg]
    rw [if_neg (appendNeAppend ("-DCMAKE_LIBRARY_OUTPUT_DIRECTORY=")
          (slashNormalize (osJoin false (osJoin false i.extdir ("perspective")) ("table")))
          ("-DCMAKE_BUILD_TYPE=") (cfgString i) 8 (by decide) (by decide) (by decide)),
      if_neg (Ne.symm (appendNeLit ("-DCMAKE_BUILD_TYPE=") (cfgString i)
        ("-DPSP_CPP_BUILD=1") 2 (by decide) (by decide) (by decide))),
      if_neg (Ne.symm (appendNeLit ("-DCMAKE_BUILD_TYPE=") (cfgString i)
        ("-DPSP_WASM_BUILD=0") 2 (by decide) (by decide) (by decide))),
      if_neg (Ne.symm (appendNeLit ("-DCMAKE_BUILD_TYPE=") (cfgString i)
        ("-DPSP_PYTHON_BUILD=1") 2 (by decide) (by decide) (by decide))),
      if_neg (appendNeAppend ("-DPSP_PYTHON_VERSION=") (pythonVersionString i)
        ("-DCMAKE_BUILD_TYPE=") (cfgString i) 2 (by decide) (by decide) (by decide)),
      if_neg (appendNeAppend ("-DPython_ADDITIONAL_VERSIONS=") (pythonVersionString i)
        ("-DCMAKE_BUILD_TYPE=") (cfgString i) 2 (by decide) (by decide) (by decide)),
      if_neg (appendNeAppend ("-DPython_FIND_VERSION=") (pythonVersionString i)
        ("-DCMAKE_BUILD_TYPE=") (cfgString i) 2 (by decide) (by decide) (by decide)),
      if_neg (appendNeAppend ("-DPython_EXECUTABLE=") (slashNormalize i.executable)
        ("-DCMAKE_BUILD_TYPE=") (cfgString i) 2 (by decide) (by decide) (by decide)),
      if_neg (appendNeAppend ("-DPython_ROOT_DIR=") (slashNormalize i.sysRootDir)
        ("-DCMAKE_BUILD_TYPE=") (cfgString i) 2 (by decide) (by decide) (by decide)),
      if_neg (appendNeAppend ("-DPython_ROOT=") (slashNormalize i.sysRootDir)
        ("-DCMAKE_BUILD_TYPE=") (cfgString i) 2 (by decide) (by decide) (by decide)),
      if_neg (appendNeAppend ("-DPSP_CMAKE_MODULE_PATH=")
        (slashNormalize (osJoin false i.sourcedir ("cmake")))
        ("-DCMAKE_BUILD_TYPE=") (cfgString i) 2 (by decide) (by decide) (by decide)),
      if_neg (appendNeAppend ("-DPSP_CPP_SRC=") (slashNormalize i.sourcedir)
        ("-DCMAKE_BUILD_TYPE=") (cfgString i) 2 (by decide) (by decide) (by decide)),
      if_neg (appendNeAppend ("-DPSP_PYTHON_SRC=")
        (slashNormalize (osJoin false (osJoin false i.sourcedir ("..")) ("perspective")))
        ("-DCMAKE_BUILD_TYPE=") (cfgString i) 2 (by decide) (by decide) (by decide))]
    norm_num

/-- C10 witness: the theorem at a concrete non-Windows input. -/
theorem c10_witness :
    countStarting (cmakeArgs sampleInputs) ("-DCMAKE_BUILD_TYPE=") = 2 ∧
    countArg (cmakeArgs sampleInputs) (("-DCMAKE_BUILD_TYPE=") ++ cfgString sampleInputs) = 2 :=
  c10_build_type_twice sampleInputs rfl

end PerspectiveSetup
